import Mathlib

/-!
Verification development for the blogicum blog application
(django-sprint4): a shallow embedding of the relational data model
(blog/models.py), the view-layer query and mutation logic
(blog/views.py) and the form field declarations (blog/forms.py),
with theorems about the publication-visibility filter, listing
feeds, the post detail lookup, comment acceptance, ownership gates,
pagination, default ordering, deletion side effects and form fields.
-/

namespace Blogicum

/-- Embeds blog/models.py Category: title, description, slug,
plus the PublicationModel fields is_published and created_at.
The database primary key is modelled as the id field. -/
structure Category where
  id : Nat
  title : String
  description : String
  slug : String
  is_published : Bool
  created_at : Int
  deriving DecidableEq

/-- Embeds blog/models.py Location: name plus the PublicationModel
fields. -/
structure Location where
  id : Nat
  name : String
  is_published : Bool
  created_at : Int
  deriving DecidableEq

/-- Embeds the framework user model as referenced by the code:
an id (primary key) and a username. -/
structure User where
  id : Nat
  username : String
  deriving DecidableEq

/-- Embeds blog/models.py Post.  Foreign keys are stored as ids:
author references a User (CASCADE on delete), location and category
are nullable references (SET_NULL on delete).  Datetimes are
modelled as integers. -/
structure Post where
  id : Nat
  title : String
  text : String
  pub_date : Int
  author : Nat
  location : Option Nat
  category : Option Nat
  image : String
  is_published : Bool
  created_at : Int
  deriving DecidableEq

/-- Embeds blog/models.py Comment: text, a post reference (CASCADE),
created_at, and an author reference (CASCADE). -/
structure Comment where
  id : Nat
  text : String
  post : Nat
  created_at : Int
  author : Nat
  deriving DecidableEq

/-- The relational database state: one table per model. -/
structure Db where
  categories : List Category
  locations : List Location
  users : List User
  posts : List Post
  comments : List Comment
  deriving DecidableEq

/-- Primary-key lookup in the categories table. -/
def findCategory (db : Db) (cid : Nat) : Option Category :=
  db.categories.find? (fun c => c.id == cid)

/-- Primary-key lookup in the posts table, as used by
get_object_or_404(Post, id=post_id). -/
def findPost (db : Db) (pid : Nat) : Option Post :=
  db.posts.find? (fun p => p.id == pid)

/-- The category row reached from a post through its nullable
category foreign key. -/
def resolvedCategory (db : Db) (p : Post) : Option Category :=
  p.category.bind (findCategory db)

/-- Embeds the ORM condition category__is_published=True from
posts_filter in blog/views.py: the filter joins through the category
foreign key, so a post with a null category produces no join row and
is excluded; otherwise the joined category row must have
is_published true. -/
def categoryJoinPublished (db : Db) (p : Post) : Bool :=
  match resolvedCategory db p with
  | none => false
  | some c => c.is_published

/-- The conjunction of the three filter conditions of posts_filter
in blog/views.py: pub_date__lte=now, is_published=True,
category__is_published=True. -/
def postPassesFilter (db : Db) (now : Int) (p : Post) : Bool :=
  decide (p.pub_date ≤ now) && p.is_published && categoryJoinPublished db p

/-- Embeds posts_filter from blog/views.py applied to a queryset:
keeps exactly the rows passing the three filter conditions
(select_related only affects fetching strategy, not contents). -/
def posts_filter (db : Db) (now : Int) (ps : List Post) : List Post :=
  ps.filter (postPassesFilter db now)

/-- The visibility invariant stated from the words of the spec:
a Post is publicly visible iff pub_date <= now AND is_published AND
its Category is_published. -/
def specPubliclyVisible (db : Db) (now : Int) (p : Post) : Prop :=
  p.pub_date ≤ now ∧ p.is_published = true ∧
    ∃ c, resolvedCategory db p = some c ∧ c.is_published = true

theorem categoryJoinPublished_eq_true_iff (db : Db) (p : Post) :
    categoryJoinPublished db p = true ↔
      ∃ c, resolvedCategory db p = some c ∧ c.is_published = true := by
  unfold categoryJoinPublished
  cases h : resolvedCategory db p with
  | none => simp
  | some c => simp [h]

/-- Claim C1: a post is selected by posts_filter if and only if it
is in the input queryset, its pub_date is at most the current time,
its is_published flag is true, and its category resolves to a
category row whose is_published flag is true. -/
theorem posts_filter_selects_iff (db : Db) (now : Int) (ps : List Post) (p : Post) :
    p ∈ posts_filter db now ps ↔ p ∈ ps ∧ specPubliclyVisible db now p := by
  unfold posts_filter specPubliclyVisible
  rw [List.mem_filter]
  unfold postPassesFilter
  rw [Bool.and_assoc, Bool.and_eq_true, Bool.and_eq_true,
    categoryJoinPublished_eq_true_iff, decide_eq_true_eq]

/-- Embeds the Index ListView queryset from blog/views.py:
posts_filter(Post.objects), the home feed. -/
def indexQueryset (db : Db) (now : Int) : List Post :=
  posts_filter db now db.posts

/-- Embeds CategoryPosts.get_queryset from blog/views.py:
get_object_or_404(Category, slug=..., is_published=True) — none
models the 404 — then posts_filter(Post.objects).filter(category=category). -/
def categoryPostsQueryset (db : Db) (now : Int) (slug : String) :
    Option (List Post) :=
  match db.categories.find? (fun c => c.slug == slug && c.is_published) with
  | none => none
  | some cat =>
      some ((posts_filter db now db.posts).filter
        (fun p => p.category == some cat.id))

/-- Embeds the profile feed of UserProfileView.get_context_data from
blog/views.py: Post.objects.filter(author=profile user), with no
visibility filtering. -/
def profileFeed (db : Db) (uid : Nat) : List Post :=
  db.posts.filter (fun p => p.author == uid)

/-- A category row published and well-formed, used by the concrete
example databases. -/
def exCategoryPub : Category :=
  { id := 1, title := "", description := "", slug := "cat",
    is_published := true, created_at := 0 }

/-- A post of user 1 in the published category 1, dated in the past,
but with is_published false: not publicly visible. -/
def exPost2 : Post :=
  { id := 1, title := "", text := "", pub_date := 0, author := 1,
    location := none, category := some 1, image := "",
    is_published := false, created_at := 0 }

/-- The example database for the profile-feed counterexample. -/
def exDb2 : Db :=
  { categories := [exCategoryPub], locations := [],
    users := [{ id := 1, username := "u" }],
    posts := [exPost2], comments := [] }

/-- Claim C2 counterexample: the profile feed of user 1 in the
concrete database exDb2 contains the post exPost2 even though that
post fails the visibility invariant (its is_published flag is
false), so the profile listing is not restricted to invariant-
satisfying posts. -/
theorem profileFeed_shows_unpublished_post :
    exPost2 ∈ profileFeed exDb2 1 ∧ ¬ specPubliclyVisible exDb2 10 exPost2 := by
  constructor
  · decide
  · intro h
    exact absurd h.2.1 (by decide)

/-- Claim C2 amended: the home feed and the category feed contain
only posts satisfying the visibility invariant, while the profile
feed contains exactly the posts authored by the profile user,
regardless of the invariant. -/
theorem listing_feeds_contents (db : Db) (now : Int) (slug : String) (uid : Nat) :
    (∀ p ∈ indexQueryset db now, specPubliclyVisible db now p) ∧
    (∀ ps, categoryPostsQueryset db now slug = some ps →
      ∀ p ∈ ps, specPubliclyVisible db now p) ∧
    (∀ p, p ∈ profileFeed db uid ↔ p ∈ db.posts ∧ p.author = uid) := by
  refine ⟨?_, ?_, ?_⟩
  · intro p hp
    exact ((posts_filter_selects_iff db now db.posts p).mp hp).2
  · intro ps hps p hp
    unfold categoryPostsQueryset at hps
    cases hfind : db.categories.find? (fun c => c.slug == slug && c.is_published) with
    | none => rw [hfind] at hps; cases hps
    | some cat =>
        rw [hfind] at hps
        cases hps
        have hmem := (List.mem_filter.mp hp).1
        exact ((posts_filter_selects_iff db now db.posts p).mp hmem).2
  · intro p
    unfold profileFeed
    rw [List.mem_filter]
    simp

/-- Witness for the amended claim C2 at a concrete input: in exDb2
the profile feed of user 1 is characterised by authorship. -/
theorem listing_feeds_contents_witness :
    exPost2 ∈ profileFeed exDb2 1 ↔ exPost2 ∈ exDb2.posts ∧ exPost2.author = 1 :=
  (listing_feeds_contents exDb2 10 "cat" 1).2.2 exPost2

/-- Witness for claim C1 at a concrete input: in exDb2 at time 10,
the unpublished post exPost2 is selected by posts_filter exactly
when it satisfies the visibility invariant. -/
theorem posts_filter_selects_iff_witness :
    exPost2 ∈ posts_filter exDb2 10 exDb2.posts ↔
      exPost2 ∈ exDb2.posts ∧ specPubliclyVisible exDb2 10 exPost2 :=
  posts_filter_selects_iff exDb2 10 exDb2.posts exPost2

/-- The standard not-found response raised by get_object_or_404 and
by an explicit raise Http404. -/
inductive Http404 where
  | notFound
  deriving DecidableEq

theorem find_post_by_id_iff (pid : Nat) (p : Post) :
    ∀ l : List Post, (l.map Post.id).Nodup →
      (l.find? (fun q => q.id == pid) = some p ↔ p ∈ l ∧ p.id = pid)
  | [], _ => by simp
  | a :: l, h => by
    rw [List.map_cons, List.nodup_cons] at h
    by_cases ha : a.id = pid
    · rw [List.find?_cons_of_pos _ (by simpa using ha)]
      constructor
      · intro h2
        injection h2 with h3
        subst h3
        exact ⟨List.mem_cons_self a l, ha⟩
      · rintro ⟨hmem, hp⟩
        rcases List.mem_cons.mp hmem with rfl | hmem2
        · rfl
        · have hap : a.id = p.id := by rw [ha, hp]
          exact absurd (hap ▸ List.mem_map_of_mem Post.id hmem2) h.1
    · rw [List.find?_cons_of_neg _ (by simpa using ha)]
      rw [find_post_by_id_iff pid p l h.2]
      constructor
      · rintro ⟨hmem, hp⟩
        exact ⟨List.mem_cons_of_mem a hmem, hp⟩
      · rintro ⟨hmem, hp⟩
        rcases List.mem_cons.mp hmem with rfl | hmem2
        · exact absurd hp ha
        · exact ⟨hmem2, hp⟩

theorem post_id_unique {l : List Post} (hid : (l.map Post.id).Nodup)
    {p q : Post} (hp : p ∈ l) (hq : q ∈ l) (h : p.id = q.id) : p = q := by
  have h1 := (find_post_by_id_iff p.id p l hid).mpr ⟨hp, rfl⟩
  have h2 := (find_post_by_id_iff p.id q l hid).mpr ⟨hq, h.symm⟩
  rw [h1] at h2
  cases h2
  rfl

theorem posts_filter_ids_nodup (db : Db) (now : Int)
    (hid : (db.posts.map Post.id).Nodup) :
    ((posts_filter db now db.posts).map Post.id).Nodup :=
  List.Nodup.sublist
    (List.Sublist.map Post.id (List.filter_sublist db.posts)) hid

/-- Embeds PostDetailView.get_object from blog/views.py:
get_object_or_404(Post, id=post_id); the post is returned directly
when the requesting user is its author; otherwise
get_object_or_404(posts_filter(Post.objects), id=post_id) raises 404
when the post is not publicly visible, and the post is returned when
the fetched object compares equal (model instances compare by
primary key); the trailing raise Http404 handles the remaining
case. -/
def postDetailGetObject (db : Db) (now : Int) (user : Option Nat) (pid : Nat) :
    Except Http404 Post :=
  match findPost db pid with
  | none => .error .notFound
  | some p =>
      if user = some p.author then .ok p
      else
        match (posts_filter db now db.posts).find? (fun q => q.id == pid) with
        | none => .error .notFound
        | some q => if p.id = q.id then .ok p else .error .notFound

theorem except_error_iff_not_ok (r : Except Http404 Post) :
    r = .error .notFound ↔ ¬ ∃ p, r = .ok p := by
  cases r with
  | error e => cases e; simp
  | ok p => simp

/-- Claim C3: under unique post ids, the detail lookup returns post
p exactly when p is the stored post with the requested id and either
the requesting user is its author or p satisfies the visibility
invariant; it returns a 404 exactly when no such post exists. -/
theorem post_detail_get_object_spec (db : Db) (now : Int) (user : Option Nat)
    (pid : Nat) (hid : (db.posts.map Post.id).Nodup) :
    (∀ p, postDetailGetObject db now user pid = .ok p ↔
      p ∈ db.posts ∧ p.id = pid ∧
        (user = some p.author ∨ specPubliclyVisible db now p)) ∧
    (postDetailGetObject db now user pid = .error .notFound ↔
      ¬ ∃ p, p ∈ db.posts ∧ p.id = pid ∧
        (user = some p.author ∨ specPubliclyVisible db now p)) := by
  have main : ∀ p, postDetailGetObject db now user pid = .ok p ↔
      p ∈ db.posts ∧ p.id = pid ∧
        (user = some p.author ∨ specPubliclyVisible db now p) := by
    intro p
    unfold postDetailGetObject findPost
    cases hf : db.posts.find? (fun q => q.id == pid) with
    | none =>
        rw [List.find?_eq_none] at hf
        simp only []
        constructor
        · intro h2
          cases h2
        · rintro ⟨hmem, hpid, _⟩
          exact absurd (by simpa using hpid) (hf p hmem)
    | some p0 =>
        dsimp only
        obtain ⟨hp0mem, hp0id⟩ := (find_post_by_id_iff pid p0 db.posts hid).mp hf
        by_cases hu : user = some p0.author
        · rw [if_pos hu]
          constructor
          · intro h2
            cases h2
            exact ⟨hp0mem, hp0id, Or.inl hu⟩
          · rintro ⟨hmem, hpid, _⟩
            have : p = p0 := post_id_unique hid hmem hp0mem (by rw [hpid, hp0id])
            rw [this]
        · rw [if_neg hu]
          cases hff : (posts_filter db now db.posts).find? (fun q => q.id == pid) with
          | none =>
              rw [List.find?_eq_none] at hff
              constructor
              · intro h2
                cases h2
              · rintro ⟨hmem, hpid, hor⟩
                have hpp0 : p = p0 :=
                  post_id_unique hid hmem hp0mem (by rw [hpid, hp0id])
                rcases hor with hauth | hvis
                · rw [hpp0] at hauth
                  exact absurd hauth hu
                · have hmemf : p ∈ posts_filter db now db.posts :=
                    (posts_filter_selects_iff db now db.posts p).mpr ⟨hmem, hvis⟩
                  exact absurd (by simpa using hpid) (hff p hmemf)
          | some q =>
              obtain ⟨hqmemf, hqid⟩ :=
                (find_post_by_id_iff pid q (posts_filter db now db.posts)
                  (posts_filter_ids_nodup db now hid)).mp hff
              obtain ⟨hqmem, hqvis⟩ :=
                (posts_filter_selects_iff db now db.posts q).mp hqmemf
              have hq0 : q = p0 :=
                post_id_unique hid hqmem hp0mem (by rw [hqid, hp0id])
              dsimp only
              rw [if_pos (show p0.id = q.id by rw [hp0id, hqid])]
              constructor
              · intro h2
                cases h2
                exact ⟨hp0mem, hp0id, Or.inr (hq0 ▸ hqvis)⟩
              · rintro ⟨hmem, hpid, _⟩
                have : p = p0 :=
                  post_id_unique hid hmem hp0mem (by rw [hpid, hp0id])
                rw [this]
  refine ⟨main, ?_⟩
  rw [except_error_iff_not_ok]
  exact not_congr (exists_congr fun p => main p)

/-- A publicly visible post: published, past-dated, in the published
category 1. -/
def exPost3 : Post :=
  { id := 1, title := "", text := "", pub_date := 0, author := 1,
    location := none, category := some 1, image := "",
    is_published := true, created_at := 0 }

/-- The example database for the post detail witness. -/
def exDb3 : Db :=
  { categories := [exCategoryPub], locations := [],
    users := [{ id := 1, username := "u" }],
    posts := [exPost3], comments := [] }

/-- Witness for claim C3 at a concrete input: an anonymous request
for the visible post 1 in exDb3 returns the post. -/
theorem post_detail_get_object_spec_witness :
    postDetailGetObject exDb3 10 none 1 = .ok exPost3 := by
  have h := (post_detail_get_object_spec exDb3 10 none 1 (by decide)).1 exPost3
  exact h.mpr ⟨by decide, by decide,
    Or.inr ⟨by decide, by decide, exCategoryPub, by rfl, by decide⟩⟩

/-- Outcome of a comment create or edit submission as implemented
by form_valid in blog/views.py: the post lookup can 404, the
expression post.category.is_published can raise AttributeError when
category is null, and otherwise the comment is saved or the form is
redisplayed with a form-level error. -/
inductive CommentOutcome where
  | notFound
  | attributeError
  | saved
  | redisplayed
  deriving DecidableEq

/-- Embeds the guard expression post.is_published and
post.category.is_published from CommentCreateView.form_valid and
EditCommentView.form_valid in blog/views.py.  Python short-circuits:
when is_published is false the result is false without touching the
category; when is_published is true and the category reference is
null the attribute access raises (modelled as error). -/
def commentPublicationCheck (db : Db) (p : Post) : Except Unit Bool :=
  if p.is_published then
    match resolvedCategory db p with
    | none => .error ()
    | some c => .ok c.is_published
  else .ok false

/-- Embeds CommentCreateView.form_valid from blog/views.py:
get_object_or_404(Post, id=post_id), then the publication guard;
on success the comment is saved, otherwise add_error plus
form_invalid redisplays the form. -/
def commentCreateOutcome (db : Db) (pid : Nat) : CommentOutcome :=
  match findPost db pid with
  | none => .notFound
  | some p =>
      match commentPublicationCheck db p with
      | .error _ => .attributeError
      | .ok true => .saved
      | .ok false => .redisplayed

/-- Embeds EditCommentView.form_valid from blog/views.py, whose body
is identical to CommentCreateView.form_valid. -/
def commentEditFormOutcome (db : Db) (pid : Nat) : CommentOutcome :=
  match findPost db pid with
  | none => .notFound
  | some p =>
      match commentPublicationCheck db p with
      | .error _ => .attributeError
      | .ok true => .saved
      | .ok false => .redisplayed

/-- Embeds the gate of DeleteCommentView in blog/views.py: its
test_func compares the requesting user with the comment author and
no publication condition is checked anywhere in the view. -/
def deleteCommentProceeds (user : Nat) (c : Comment) : Bool :=
  user == c.author

/-- A post dated in the future (pub_date 10), published, in the
published category 1: it fails the visibility invariant at now = 5
yet passes the comment publication guard. -/
def exPost4 : Post :=
  { id := 1, title := "", text := "", pub_date := 10, author := 1,
    location := none, category := some 1, image := "",
    is_published := true, created_at := 0 }

/-- The example database for the comment acceptance counterexample. -/
def exDb4 : Db :=
  { categories := [exCategoryPub], locations := [],
    users := [{ id := 1, username := "u" }],
    posts := [exPost4], comments := [] }

/-- Claim C4 counterexample: at time 5 the future-dated post 1 of
exDb4 is not publicly visible, yet a comment submission against it
is saved — acceptance is not equivalent to visibility because
pub_date is never checked by the guard. -/
theorem comment_accepted_on_invisible_post :
    findPost exDb4 1 = some exPost4 ∧
    commentCreateOutcome exDb4 1 = CommentOutcome.saved ∧
    ¬ specPubliclyVisible exDb4 5 exPost4 := by
  refine ⟨rfl, rfl, ?_⟩
  intro h
  exact absurd h.1 (by decide)

/-- Claim C4 amended: for comment create and edit against an
existing post, the submission is saved iff the post has
is_published true and its category resolves to a published row;
it redisplays the form with a form-level error iff is_published is
false or the category resolves to an unpublished row; it raises an
attribute error iff is_published is true and the category does not
resolve; the pub_date condition plays no part; comment deletion is
gated only on authorship, not on publication. -/
theorem comment_mutation_gate_spec (db : Db) (pid : Nat) (p : Post)
    (hp : findPost db pid = some p) :
    (commentCreateOutcome db pid = CommentOutcome.saved ↔
      p.is_published = true ∧
        ∃ c, resolvedCategory db p = some c ∧ c.is_published = true) ∧
    (commentCreateOutcome db pid = CommentOutcome.redisplayed ↔
      p.is_published = false ∨
        ∃ c, resolvedCategory db p = some c ∧ c.is_published = false) ∧
    (commentCreateOutcome db pid = CommentOutcome.attributeError ↔
      p.is_published = true ∧ resolvedCategory db p = none) ∧
    commentEditFormOutcome db pid = commentCreateOutcome db pid ∧
    (∀ u c, deleteCommentProceeds u c = true ↔ u = c.author) := by
  unfold commentCreateOutcome commentEditFormOutcome commentPublicationCheck
  rw [hp]
  dsimp only
  refine ⟨?_, ?_, ?_, rfl, ?_⟩
  · by_cases hpub : p.is_published
    · rw [if_pos hpub]
      cases hres : resolvedCategory db p with
      | none => simp [hpub]
      | some c =>
          dsimp only
          cases hc : c.is_published with
          | false => simp [hpub, hc]
          | true => simp [hpub, hc]
    · rw [if_neg hpub]
      simp only [Bool.not_eq_true] at hpub
      simp [hpub]
  · by_cases hpub : p.is_published
    · rw [if_pos hpub]
      cases hres : resolvedCategory db p with
      | none => simp [hpub]
      | some c =>
          dsimp only
          cases hc : c.is_published with
          | false => simp [hpub, hc]
          | true => simp [hpub, hc]
    · rw [if_neg hpub]
      simp only [Bool.not_eq_true] at hpub
      simp [hpub]
  · by_cases hpub : p.is_published
    · rw [if_pos hpub]
      cases hres : resolvedCategory db p with
      | none => simp [hpub]
      | some c =>
          dsimp only
          cases hc : c.is_published with
          | false => simp [hpub, hc]
          | true => simp [hpub, hc]
    · rw [if_neg hpub]
      simp only [Bool.not_eq_true] at hpub
      simp [hpub]
  · intro u c
    unfold deleteCommentProceeds
    exact beq_iff_eq

/-- Witness for the amended claim C4 at a concrete input: in exDb4
the comment submission against post 1 is saved, by the saved
characterisation. -/
theorem comment_mutation_gate_spec_witness :
    commentCreateOutcome exDb4 1 = CommentOutcome.saved :=
  ((comment_mutation_gate_spec exDb4 1 exPost4 rfl).1).mpr
    ⟨rfl, exCategoryPub, rfl, rfl⟩

/-- Decision of an ownership gate (UserPassesTestMixin): either the
mutation proceeds or the response is a redirect to the post detail
page with the given post id, as produced by handle_no_permission. -/
inductive GateDecision where
  | proceed
  | redirectPostDetail (pid : Nat)
  deriving DecidableEq

/-- Embeds EditPostView: test_func compares the user with the post
author; handle_no_permission redirects to post_detail with the post
id. -/
def editPostGate (user : Nat) (p : Post) : GateDecision :=
  if user == p.author then .proceed else .redirectPostDetail p.id

/-- Embeds DeletePostView: identical gate to EditPostView. -/
def deletePostGate (user : Nat) (p : Post) : GateDecision :=
  if user == p.author then .proceed else .redirectPostDetail p.id

/-- Embeds EditCommentView: test_func compares the user with the
comment author; handle_no_permission fetches the comment into a
variable named post and redirects to post_detail with post.id —
that is, with the id of the comment itself, not of its post. -/
def editCommentGate (user : Nat) (c : Comment) : GateDecision :=
  if user == c.author then .proceed else .redirectPostDetail c.id

/-- Embeds DeleteCommentView: test_func compares the user with the
comment author; handle_no_permission redirects to post_detail with
comment.post.id. -/
def deleteCommentGate (user : Nat) (c : Comment) : GateDecision :=
  if user == c.author then .proceed else .redirectPostDetail c.post

/-- Comment 7 attached to post 3, authored by user 1. -/
def exComment5 : Comment :=
  { id := 7, text := "", post := 3, created_at := 0, author := 1 }

/-- Claim C5, evaluation at the failing input: when user 2 (not the
author) tries to edit comment 7 of post 3, the edit gate blocks the
mutation but redirects to the post detail page with id 7 — the
comment id, not the id 3 of the record post — whereas the delete
gate on the same comment redirects to id 3; the author (user 1)
proceeds. -/
theorem edit_comment_gate_redirect_bug :
    editCommentGate 2 exComment5 = GateDecision.redirectPostDetail 7 ∧
    exComment5.post = 3 ∧ (7 : Nat) ≠ 3 ∧
    deleteCommentGate 2 exComment5 = GateDecision.redirectPostDetail 3 ∧
    editCommentGate 1 exComment5 = GateDecision.proceed := by
  refine ⟨rfl, rfl, by decide, rfl, rfl⟩

/-- A post with a null category, published and past-dated. -/
def exPost6 : Post :=
  { id := 1, title := "", text := "", pub_date := 0, author := 1,
    location := none, category := none, image := "",
    is_published := true, created_at := 0 }

/-- The example database for the null-category counterexample. -/
def exDb6 : Db :=
  { categories := [exCategoryPub], locations := [],
    users := [{ id := 1, username := "u" }],
    posts := [exPost6], comments := [] }

/-- Claim C6 counterexample: post 1 of exDb6 has a null category,
is published and past-dated, yet the visibility filter excludes it
and the comment publication guard raises an attribute error — the
null category is not treated permissively. -/
theorem null_category_not_permissive :
    exPost6.category = none ∧ exPost6.is_published = true ∧
    exPost6.pub_date ≤ 10 ∧
    postPassesFilter exDb6 10 exPost6 = false ∧
    commentPublicationCheck exDb6 exPost6 = .error () := by
  exact ⟨rfl, rfl, by decide, rfl, rfl⟩

/-- Claim C6 amended: a post whose category reference is null is
always excluded by the visibility filter, and when its is_published
flag is true the comment publication guard raises an attribute
error instead of evaluating the category condition. -/
theorem null_category_behaviour (db : Db) (now : Int) (p : Post)
    (hcat : p.category = none) :
    postPassesFilter db now p = false ∧
    (p.is_published = true → commentPublicationCheck db p = .error ()) := by
  have hres : resolvedCategory db p = none := by
    unfold resolvedCategory
    rw [hcat]
    rfl
  constructor
  · unfold postPassesFilter categoryJoinPublished
    rw [hres]
    simp
  · intro hpub
    unfold commentPublicationCheck
    rw [if_pos hpub, hres]

/-- Witness for the amended claim C6 at a concrete input. -/
theorem null_category_behaviour_witness :
    postPassesFilter exDb6 10 exPost6 = false ∧
    commentPublicationCheck exDb6 exPost6 = .error () := by
  have h := null_category_behaviour exDb6 10 exPost6 rfl
  exact ⟨h.1, h.2 rfl⟩

/-- Embeds Paginator.num_pages for per_page 10 and zero orphans
with allow_empty_first_page: the ceiling of count divided by 10, at
least 1. -/
def num_pages (count : Nat) : Nat :=
  max 1 ((count + 9) / 10)

/-- The standard page-window slice of the Django page object for a
1-based page number n and per_page 10: elements (n-1)*10 up to
n*10. -/
def pageWindow (ps : List Post) (n : Nat) : List Post :=
  (ps.drop ((n - 1) * 10)).take 10

/-- Embeds Paginator.get_page number handling as used by
UserProfileView.get_context_data: a missing or non-integer query
parameter (none) falls back to page 1; an integer below 1 or above
num_pages falls back to the last page. -/
def validatePageNumber (count : Nat) (page : Option Nat) : Nat :=
  match page with
  | none => 1
  | some n =>
      if n < 1 then num_pages count
      else if n > num_pages count then num_pages count
      else n

/-- Embeds paginator.get_page(page_number) for the profile feed:
the page window at the validated page number. -/
def getPage (ps : List Post) (page : Option Nat) : List Post :=
  pageWindow ps (validatePageNumber ps.length page)

/-- Embeds the ListView pagination used by Index and CategoryPosts
with paginate_by 10: a valid page number yields its window, an
invalid one raises a 404. -/
def listViewPage (ps : List Post) (n : Nat) : Except Http404 (List Post) :=
  if 1 ≤ n ∧ n ≤ num_pages ps.length then .ok (pageWindow ps n)
  else .error .notFound

/-- Claim C7: every page returned by the profile paginator or by
the ListView paginator holds at most 10 posts and is a window slice
of the full collection, and a valid page number yields exactly its
standard window. -/
theorem pagination_page_size_spec (ps : List Post) (page : Option Nat) (n : Nat) :
    (getPage ps page).length ≤ 10 ∧
    (∃ k, getPage ps page = (ps.drop k).take 10) ∧
    (∀ l, listViewPage ps n = .ok l →
      l.length ≤ 10 ∧ ∃ k, l = (ps.drop k).take 10) ∧
    (1 ≤ n → n ≤ num_pages ps.length →
      listViewPage ps n = .ok (pageWindow ps n)) := by
  have hw : ∀ m, (pageWindow ps m).length ≤ 10 := by
    intro m
    unfold pageWindow
    rw [List.length_take]
    exact min_le_left _ _
  refine ⟨hw _, ⟨(validatePageNumber ps.length page - 1) * 10, rfl⟩, ?_, ?_⟩
  · intro l hl
    unfold listViewPage at hl
    by_cases h : 1 ≤ n ∧ n ≤ num_pages ps.length
    · rw [if_pos h] at hl
      injection hl with hl2
      subst hl2
      exact ⟨hw n, (n - 1) * 10, rfl⟩
    · rw [if_neg h] at hl
      cases hl
  · intro h1 h2
    unfold listViewPage
    rw [if_pos ⟨h1, h2⟩]

/-- A one-post collection for the pagination witness. -/
def exPosts7 : List Post :=
  [{ id := 1, title := "", text := "", pub_date := 0, author := 1,
     location := none, category := some 1, image := "",
     is_published := true, created_at := 0 }]

/-- Witness for claim C7 at a concrete input: page 1 of a one-post
collection is its own window and within the size bound. -/
theorem pagination_page_size_spec_witness :
    (getPage exPosts7 (some 1)).length ≤ 10 ∧
    listViewPage exPosts7 1 = .ok (pageWindow exPosts7 1) :=
  ⟨(pagination_page_size_spec exPosts7 (some 1) 1).1,
   (pagination_page_size_spec exPosts7 (some 1) 1).2.2.2
     (by decide) (by decide)⟩

/-- The comparison generated by the Post Meta ordering
(-pub_date,): descending by pub_date. -/
def postDescPubDate (a b : Post) : Prop :=
  b.pub_date ≤ a.pub_date

/-- The comparison generated by the Comment Meta ordering
(created_at,): ascending by created_at. -/
def commentAscCreated (a b : Comment) : Prop :=
  a.created_at ≤ b.created_at

instance : DecidableRel postDescPubDate :=
  fun a b => inferInstanceAs (Decidable (b.pub_date ≤ a.pub_date))

instance : IsTotal Post postDescPubDate :=
  ⟨fun a b => le_total b.pub_date a.pub_date⟩

instance : IsTrans Post postDescPubDate :=
  ⟨fun _ _ _ hab hbc => le_trans hbc hab⟩

instance : DecidableRel commentAscCreated :=
  fun a b => inferInstanceAs (Decidable (a.created_at ≤ b.created_at))

instance : IsTotal Comment commentAscCreated :=
  ⟨fun a b => le_total a.created_at b.created_at⟩

instance : IsTrans Comment commentAscCreated :=
  ⟨fun _ _ _ hab hbc => le_trans hab hbc⟩

/-- Applying the default ordering of Post.Meta in blog/models.py
(ordering = (-pub_date,)) to a queryset. -/
def orderPosts (ps : List Post) : List Post :=
  List.insertionSort postDescPubDate ps

/-- Applying the default ordering of Comment.Meta in blog/models.py
(ordering = (created_at,)) to a queryset. -/
def orderComments (cs : List Comment) : List Comment :=
  List.insertionSort commentAscCreated cs

/-- Claim C8: a post queryset under the default ordering is sorted
in descending order of pub_date, and a comment queryset under the
default ordering is sorted in ascending order of created_at; both
are rearrangements of the underlying rows. -/
theorem default_ordering_spec (ps : List Post) (cs : List Comment) :
    List.Sorted postDescPubDate (orderPosts ps) ∧
    (orderPosts ps).Perm ps ∧
    List.Sorted commentAscCreated (orderComments cs) ∧
    (orderComments cs).Perm cs :=
  ⟨List.sorted_insertionSort _ _, List.perm_insertionSort _ _,
   List.sorted_insertionSort _ _, List.perm_insertionSort _ _⟩

/-- Witness for claim C8 at a concrete input: the default ordering
of the one-post collection is sorted descending by pub_date. -/
theorem default_ordering_spec_witness :
    List.Sorted postDescPubDate (orderPosts exPosts7) :=
  (default_ordering_spec exPosts7 []).1

/-- Embeds deletion of a Category row: the category foreign key of
Post has on_delete=SET_NULL, so every post referencing the category
gets a null category; no other table is touched. -/
def deleteCategory (db : Db) (cid : Nat) : Db :=
  { db with
    categories := db.categories.filter (fun c => c.id != cid),
    posts := db.posts.map (fun p =>
      if p.category = some cid then { p with category := none } else p) }

/-- Embeds deletion of a Location row: the location foreign key of
Post has on_delete=SET_NULL. -/
def deleteLocation (db : Db) (lid : Nat) : Db :=
  { db with
    locations := db.locations.filter (fun l => l.id != lid),
    posts := db.posts.map (fun p =>
      if p.location = some lid then { p with location := none } else p) }

/-- Embeds deletion of a Post row: the post foreign key of Comment
has on_delete=CASCADE, so the comments of the post are deleted with
it. -/
def deletePost (db : Db) (pid : Nat) : Db :=
  { db with
    posts := db.posts.filter (fun p => p.id != pid),
    comments := db.comments.filter (fun c => c.post != pid) }

/-- Embeds deletion of a User row: the author foreign keys of Post
and Comment both have on_delete=CASCADE, so the posts and comments
authored by the user are deleted, and the cascade through the
deleted posts also deletes every comment attached to one of them. -/
def deleteUser (db : Db) (uid : Nat) : Db :=
  { db with
    users := db.users.filter (fun u => u.id != uid),
    posts := db.posts.filter (fun p => p.author != uid),
    comments := db.comments.filter (fun c =>
      c.author != uid &&
        !(db.posts.any (fun p => p.id == c.post && p.author == uid))) }

/-- A post of user 2 in category 1. -/
def exPost9 : Post :=
  { id := 3, title := "", text := "", pub_date := 0, author := 2,
    location := none, category := some 1, image := "",
    is_published := true, created_at := 0 }

/-- A comment of user 1 on the post of user 2. -/
def exComment9 : Comment :=
  { id := 4, text := "", post := 3, created_at := 0, author := 1 }

/-- The example database for the user-deletion counterexample. -/
def exDb9 : Db :=
  { categories := [exCategoryPub], locations := [],
    users := [{ id := 1, username := "a" }, { id := 2, username := "b" }],
    posts := [exPost9], comments := [exComment9] }

/-- Claim C9 counterexample: user 1 owns no posts, yet deleting
user 1 removes the comment of user 1 on the post of user 2 — a
record outside the effects listed by the claim is affected, because
the author foreign key of Comment also cascades. -/
theorem user_delete_cascades_comments :
    exComment9 ∈ exDb9.comments ∧ exComment9.author = 1 ∧
    (∀ p ∈ exDb9.posts, p.author ≠ 1) ∧
    exComment9 ∉ (deleteUser exDb9 1).comments ∧
    (deleteUser exDb9 1).posts = exDb9.posts := by
  refine ⟨by decide, rfl, by decide, by decide, by decide⟩

/-- Claim C9 amended: deleting a Category or Location removes that
row, nulls the corresponding reference of each post that held it
while leaving every other field of every post and all other tables
unchanged; deleting a Post removes exactly that post and the
comments attached to it; deleting a User removes that user, the
posts authored by the user, and every comment that is authored by
the user or attached to a post authored by the user; nothing else
changes. -/
theorem delete_effects_spec (db : Db) (cid lid pid uid : Nat) :
    ((deleteCategory db cid).locations = db.locations ∧
     (deleteCategory db cid).users = db.users ∧
     (deleteCategory db cid).comments = db.comments ∧
     (∀ c, c ∈ (deleteCategory db cid).categories ↔
        c ∈ db.categories ∧ c.id ≠ cid) ∧
     (deleteCategory db cid).posts.length = db.posts.length ∧
     (∀ p ∈ db.posts, ∃ q ∈ (deleteCategory db cid).posts,
        q.id = p.id ∧ q.title = p.title ∧ q.text = p.text ∧
        q.pub_date = p.pub_date ∧ q.author = p.author ∧
        q.location = p.location ∧ q.image = p.image ∧
        q.is_published = p.is_published ∧ q.created_at = p.created_at ∧
        q.category = (if p.category = some cid then none else p.category))) ∧
    ((deleteLocation db lid).categories = db.categories ∧
     (deleteLocation db lid).users = db.users ∧
     (deleteLocation db lid).comments = db.comments ∧
     (∀ l, l ∈ (deleteLocation db lid).locations ↔
        l ∈ db.locations ∧ l.id ≠ lid) ∧
     (deleteLocation db lid).posts.length = db.posts.length ∧
     (∀ p ∈ db.posts, ∃ q ∈ (deleteLocation db lid).posts,
        q.id = p.id ∧ q.title = p.title ∧ q.text = p.text ∧
        q.pub_date = p.pub_date ∧ q.author = p.author ∧
        q.category = p.category ∧ q.image = p.image ∧
        q.is_published = p.is_published ∧ q.created_at = p.created_at ∧
        q.location = (if p.location = some lid then none else p.location))) ∧
    ((deletePost db pid).categories = db.categories ∧
     (deletePost db pid).locations = db.locations ∧
     (deletePost db pid).users = db.users ∧
     (∀ p, p ∈ (deletePost db pid).posts ↔ p ∈ db.posts ∧ p.id ≠ pid) ∧
     (∀ c, c ∈ (deletePost db pid).comments ↔
        c ∈ db.comments ∧ c.post ≠ pid)) ∧
    ((deleteUser db uid).categories = db.categories ∧
     (deleteUser db uid).locations = db.locations ∧
     (∀ u, u ∈ (deleteUser db uid).users ↔ u ∈ db.users ∧ u.id ≠ uid) ∧
     (∀ p, p ∈ (deleteUser db uid).posts ↔ p ∈ db.posts ∧ p.author ≠ uid) ∧
     (∀ c, c ∈ (deleteUser db uid).comments ↔
        c ∈ db.comments ∧ c.author ≠ uid ∧
          ¬ ∃ p, p ∈ db.posts ∧ p.id = c.post ∧ p.author = uid)) := by
  refine ⟨⟨rfl, rfl, rfl, ?_, ?_, ?_⟩, ⟨rfl, rfl, rfl, ?_, ?_, ?_⟩,
    ⟨rfl, rfl, rfl, ?_, ?_⟩, ⟨rfl, rfl, ?_, ?_, ?_⟩⟩
  · intro c
    simp [deleteCategory, List.mem_filter]
  · simp [deleteCategory]
  · intro p hp
    refine ⟨if p.category = some cid then { p with category := none } else p,
      List.mem_map_of_mem _ hp, ?_⟩
    by_cases hc : p.category = some cid <;> simp [hc]
  · intro l
    simp [deleteLocation, List.mem_filter]
  · simp [deleteLocation]
  · intro p hp
    refine ⟨if p.location = some lid then { p with location := none } else p,
      List.mem_map_of_mem _ hp, ?_⟩
    by_cases hc : p.location = some lid <;> simp [hc]
  · intro p
    simp [deletePost, List.mem_filter]
  · intro c
    simp [deletePost, List.mem_filter]
  · intro u
    simp [deleteUser, List.mem_filter]
  · intro p
    simp [deleteUser, List.mem_filter]
  · intro c
    simp only [deleteUser, List.mem_filter, Bool.and_eq_true, Bool.not_eq_true',
      List.any_eq_false, bne_iff_ne, beq_iff_eq, ne_eq, and_assoc]
    constructor
    · rintro ⟨hmem, hne, hall⟩
      refine ⟨hmem, hne, ?_⟩
      rintro ⟨p, hp, hpid, hpa⟩
      exact hall p hp ⟨hpid, hpa⟩
    · rintro ⟨hmem, hne, hnex⟩
      refine ⟨hmem, hne, ?_⟩
      intro p hp hcontra
      exact hnex ⟨p, hp, hcontra.1, hcontra.2⟩

/-- Witness for the amended claim C9 at a concrete input: deleting
category 1 in exDb9 leaves the users table unchanged, and deleting
user 1 removes the comment of user 1. -/
theorem delete_effects_spec_witness :
    (deleteCategory exDb9 1).users = exDb9.users ∧
    ¬ (exComment9 ∈ (deleteUser exDb9 1).comments) :=
  ⟨(delete_effects_spec exDb9 1 0 0 1).1.2.1,
   fun h =>
     absurd
       (((delete_effects_spec exDb9 1 0 0 1).2.2.2.2.2.2.2 exComment9).mp h).2.1
       (by decide)⟩

/-- The field names of the Comment model in blog/models.py: text,
post, created_at, author. -/
def commentModelFieldNames : List String :=
  ["text", "post", "created_at", "author"]

/-- The field tuple declared by CommentForm.Meta in blog/forms.py
and repeated by EditCommentView.fields in blog/views.py. -/
def commentFormFieldNames : List String :=
  ["comment"]

/-- Claim C10, evaluation at the failing input: the single field
the comment form declares, comment, is not among the fields of the
Comment model, so building the model form raises an unknown-field
FieldError on every request to the comment create and edit
endpoints. -/
theorem comment_form_field_unknown :
    "comment" ∈ commentFormFieldNames ∧
    ¬ ("comment" ∈ commentModelFieldNames) := by
  refine ⟨by decide, by decide⟩

end Blogicum
